import Mathlib

/-!
# Shallow embedding of the hook-and-catch mini-game core

This file embeds the gameplay core of the repository (combo/score engine,
session orchestrator, spawn scheduler, weighted random draw, object pool)
as executable Lean definitions translated from the TypeScript sources:

* `src/assets/scripts/core/ComboManager.ts` (ComboManager and GameManager)
* ScoreManager (`src/unnamed/part_000`)
* `src/assets/scripts/gameplay/ObjectSpawner.ts`
* `src/assets/scripts/data/ObjectDatabase.ts`
* `src/assets/scripts/data/GameConfig.ts`
* ObjectPool (second part of `src/assets/scripts/monetization/DailyRewardManager.ts`)

JavaScript numbers are modelled as rationals (`ℚ`), integer counters as `ℕ`,
scores as `ℤ`.  `Math.round` is modelled by `⌊x + 1/2⌋` (round half toward
+∞), which is its exact semantics on rationals.  Event-bus emissions are
returned explicitly as lists of `Emit` values; `EventBus.emit` dispatches
synchronously, so a handler's effect happens inside the emitting call.
-/

namespace WeGame

/-- JavaScript `Math.round`: round half up (toward plus infinity),
i.e. the floor of `q + 1/2` (exact on rationals). -/
def jsRound (q : ℚ) : ℤ := ⌊q + 1/2⌋

/-- `IComboTier` from `IGameConfig.ts`: one combo-multiplier bracket. -/
structure ComboTier where
  minCombo   : ℕ
  multiplier : ℚ
  label      : String
  deriving DecidableEq, Repr

/-- `DEFAULT_GAME_CONFIG.comboTiers` from `GameConfig.ts`. -/
def comboTiers : List ComboTier :=
  [ ⟨1,  1,    ""⟩,
    ⟨3,  3/2,  "GOOD!"⟩,
    ⟨5,  2,    "GREAT!"⟩,
    ⟨8,  3,    "AMAZING!"⟩,
    ⟨12, 4,    "INSANE!"⟩ ]

/-- `comboTiers[0]` — the baseline tier (multiplier 1, empty label). -/
def baselineTier : ComboTier := comboTiers.getD 0 ⟨0, 0, ""⟩

/-- `FAIL_SOFT_THRESHOLD` from `GameConfig.ts`. -/
def FAIL_SOFT_THRESHOLD : ℕ := 2

/-- `REWARD_RHYTHM_INTERVAL_S` from `GameConfig.ts`. -/
def REWARD_RHYTHM_INTERVAL_S : ℚ := 9

/-- `DEFAULT_GAME_CONFIG.maxActiveObjects` from `GameConfig.ts`. -/
def maxActiveObjects : ℕ := 8

/-- `DEFAULT_GAME_CONFIG.sessionDurationSeconds` from `GameConfig.ts`. -/
def sessionDurationSeconds : ℚ := 45

/-- `DIFFICULTY_TIME_BRACKETS` from `GameConfig.ts`. -/
def DIFFICULTY_TIME_BRACKETS : List ℚ := [0, 15, 30]

/-- `ObjectType` enum (`src/unnamed/part_011` and `ObjectType.ts`). -/
inductive ObjectType
  | COMMON | RARE | BONUS | OBSTACLE | SPECIAL
  deriving DecidableEq, Repr

/-- `ISpawnObjectConfig` — one catalogue entry of `OBJECT_DATABASE`
(prefab path and speed/scale ranges are irrelevant to the claims and
kept only where a claim reads them). -/
structure SpawnCfg where
  id             : String
  type           : ObjectType
  baseScoreValue : ℚ
  spawnWeight    : ℚ
  isObstacle     : Bool
  deriving DecidableEq, Repr

/-- `OBJECT_DATABASE` from `ObjectDatabase.ts` (catalogue order preserved). -/
def OBJECT_DATABASE : List SpawnCfg :=
  [ ⟨"common_small",  .COMMON,   10,  3/10,  false⟩,
    ⟨"common_large",  .COMMON,   25,  1/5,   false⟩,
    ⟨"rare_gem",      .RARE,     60,  9/50,  false⟩,
    ⟨"bonus_gold",    .BONUS,    100, 3/25,  false⟩,
    ⟨"obstacle_rock", .OBSTACLE, -30, 3/25,  true⟩,
    ⟨"special_star",  .SPECIAL,  200, 2/25,  false⟩ ]

/-- `FTUE_OBJECT_CONFIG = OBJECT_DATABASE.find(o => o.id === 'bonus_gold')`. -/
def FTUE_OBJECT_CONFIG : SpawnCfg :=
  ((OBJECT_DATABASE.filter (fun o => o.id = "bonus_gold")).getD 0
    (OBJECT_DATABASE.getD 0 ⟨"", .COMMON, 0, 0, false⟩))

/-- `FAIL_SOFT_WEIGHT_OVERRIDE` from `ObjectDatabase.ts`, as a partial map. -/
def FAIL_SOFT_WEIGHT_OVERRIDE : String → Option ℚ := fun id =>
  if id = "common_small"  then some (2/5)  else
  if id = "bonus_gold"    then some (3/10) else
  if id = "obstacle_rock" then some 0      else
  if id = "rare_gem"      then some (1/5)  else
  if id = "common_large"  then some (2/25) else
  if id = "special_star"  then some (1/50) else none

/-- One entry of the table built inside `rollRandomObject`:
`{ cfg, weight: weightOverride?.[cfg.id] ?? cfg.spawnWeight }`. -/
structure WeightEntry where
  cfg    : SpawnCfg
  weight : ℚ
  deriving DecidableEq, Repr

/-- The weight table `rollRandomObject` builds from the catalogue and an
optional override map. -/
def rollTable (ov : String → Option ℚ) : List WeightEntry :=
  OBJECT_DATABASE.map (fun c => ⟨c, (ov c.id).getD c.spawnWeight⟩)

/-- `table.reduce((s, e) => s + e.weight, 0)` — total applicable weight. -/
def totalWeight (t : List WeightEntry) : ℚ :=
  t.foldl (fun s e => s + e.weight) 0

/-- The `for (const entry of table) { roll -= entry.weight; if (roll <= 0)
return entry.cfg; }` loop; `last` is `table[table.length - 1]`, returned
when the whole pass leaves a positive remainder. -/
def drawLoop (roll : ℚ) (t : List WeightEntry) (last : WeightEntry) :
    WeightEntry :=
  match t with
  | [] => last
  | e :: rest =>
      if roll - e.weight ≤ 0 then e else drawLoop (roll - e.weight) rest last

/-- `rollRandomObject` from `ObjectDatabase.ts`, with the uniform draw
`Math.random()` made an explicit parameter `r ∈ [0,1)`.  Returns the
selected table entry (the source returns `entry.cfg`; keeping the entry
lets theorems speak about the selected weight). -/
def rollRandomEntry (ov : String → Option ℚ) (r : ℚ) : WeightEntry :=
  let table := rollTable ov
  let dflt : WeightEntry := ⟨⟨"", .COMMON, 0, 0, false⟩, 0⟩
  let last := table.getD (table.length - 1) dflt
  drawLoop (r * totalWeight table) table last

/-- `rollRandomObject(weightOverride?)` — the config actually returned. -/
def rollRandomObject (ov : String → Option ℚ) (r : ℚ) : SpawnCfg :=
  (rollRandomEntry ov r).cfg

/-! ## ComboManager (`src/assets/scripts/core/ComboManager.ts`) -/

/-- Events emitted on the `EventBus` by the embedded components. -/
inductive Emit
  | comboUpdated (combo : ℕ) (multiplier : ℚ) (label : String)
  | comboReset (consecutiveFailures : ℕ)
  | failSoft (active : Bool)
  | highScoreBeaten (score : ℤ)
  | forceBonusSpawn
  deriving DecidableEq, Repr

/-- The state `ComboManager` owns. -/
structure ComboState where
  comboCount          : ℕ
  maxComboReached     : ℕ
  consecutiveFailures : ℕ
  currentTier         : ComboTier
  failSoftActive      : Bool
  deriving DecidableEq, Repr

/-- `ComboManager.reset()` — also the freshly-loaded state. -/
def ComboState.reset : ComboState :=
  ⟨0, 0, 0, baselineTier, false⟩

/-- `ComboManager._resolveTier(combo)`: a linear last-match scan of
`DEFAULT_GAME_CONFIG.comboTiers` starting from `tiers[0]`. -/
def resolveTier (combo : ℕ) : ComboTier :=
  comboTiers.foldl (fun resolved tier =>
    if tier.minCombo ≤ combo then tier else resolved) baselineTier

/-- `ComboManager.onSuccessfulCatch()`.  Returns the new state and the
events emitted (a `FAIL_SOFT_ACTIVE {active:false}` if fail-soft was on,
then `COMBO_UPDATED`). -/
def ComboState.onSuccessfulCatch (s : ComboState) : ComboState × List Emit :=
  let comboCount := s.comboCount + 1
  let maxCombo := if s.maxComboReached < comboCount then comboCount
                  else s.maxComboReached
  let failEmits := if s.failSoftActive then [Emit.failSoft false] else []
  let tier := resolveTier comboCount
  (⟨comboCount, maxCombo, 0, tier, false⟩,
   failEmits ++ [Emit.comboUpdated comboCount tier.multiplier tier.label])

/-- `ComboManager.onMiss()`.  Returns the new state and the events emitted
(`FAIL_SOFT_ACTIVE {active:true}` when the threshold is newly crossed, then
`COMBO_RESET` when the broken combo was at least 3). -/
def ComboState.onMiss (s : ComboState) : ComboState × List Emit :=
  let hadCombo := decide (3 ≤ s.comboCount)
  let failures := s.consecutiveFailures + 1
  let fsTrigger := decide (FAIL_SOFT_THRESHOLD ≤ failures) && !s.failSoftActive
  let active := s.failSoftActive || fsTrigger
  (⟨0, s.maxComboReached, failures, baselineTier, active⟩,
   (if fsTrigger then [Emit.failSoft true] else []) ++
   (if hadCombo then [Emit.comboReset failures] else []))

/-! ## ScoreManager (`src/unnamed/part_000`) -/

/-- The state `ScoreManager` owns (the session id and start time carry no
arithmetic and are omitted). -/
structure ScoreState where
  currentScore     : ℤ
  sessionHighScore : ℤ
  persistedBest    : ℤ
  isNewHighScore   : Bool
  objectsCaught    : ℕ
  objectsMissed    : ℕ
  deriving DecidableEq, Repr

/-- `ScoreManager.init(sessionId)`: zero everything, load the persisted
best from storage (made a parameter). -/
def ScoreState.init (persistedBest : ℤ) : ScoreState :=
  ⟨0, 0, persistedBest, false, 0, 0⟩

/-- `ScoreManager.addScore(obj)`.  The multiplier read from
`ComboManager.instance.currentMultiplier` is a parameter (the orchestrator
embedding passes the post-update multiplier, as the call order dictates).
Returns the new state, the emitted events, and the computed `delta`
(also the `SCORE_UPDATED` payload's delta). -/
def ScoreState.addScore (s : ScoreState) (scoreValue : ℚ) (multiplier : ℚ) :
    ScoreState × List Emit × ℤ :=
  let delta := jsRound (scoreValue * multiplier)
  let currentScore := max 0 (s.currentScore + delta)
  let caught := if 0 ≤ delta then s.objectsCaught + 1 else s.objectsCaught
  let missed := if 0 ≤ delta then s.objectsMissed else s.objectsMissed + 1
  let beaten := s.persistedBest < currentScore
  let isNew := if beaten then true else s.isNewHighScore
  let best  := if beaten then currentScore else s.persistedBest
  let hsEmits := if beaten ∧ s.isNewHighScore = false
                 then [Emit.highScoreBeaten currentScore] else []
  let sessionHigh := if s.sessionHighScore < currentScore then currentScore
                     else s.sessionHighScore
  (⟨currentScore, sessionHigh, best, isNew, caught, missed⟩, hsEmits, delta)

/-- `ScoreManager.recordMiss()`: increment the miss counter only. -/
def ScoreState.recordMiss (s : ScoreState) : ScoreState :=
  { s with objectsMissed := s.objectsMissed + 1 }

/-! ## GameManager (second part of `src/assets/scripts/core/ComboManager.ts`) -/

/-- `GameState` enum. -/
inductive GameState
  | IDLE | LOADING | PLAYING | PAUSED | RESULT
  deriving DecidableEq, Repr

/-- `ISpawnObjectInstance` — the fields the catch pathway reads. -/
structure SpawnInstance where
  configId   : String
  type       : ObjectType
  scoreValue : ℚ
  deriving DecidableEq, Repr

/-- The orchestrator state `GameManager` owns, together with the states of
the two engines it drives through the (synchronous) event bus.  The hook
controller is represented by its input-enabled flag, the only part of it
the orchestrator mutates. -/
structure GMState where
  state        : GameState
  timeLeft     : ℚ
  totalTime    : ℚ
  diffIdx      : ℕ
  inputEnabled : Bool
  combo        : ComboState
  score        : ScoreState
  deriving DecidableEq, Repr

/-- `GameManager._onEnterPlaying()`: restart the countdown from the full
session duration, reset the hook and re-enable input. -/
def GMState.onEnterPlaying (g : GMState) : GMState :=
  { g with timeLeft := g.totalTime, inputEnabled := true }

/-- `GameManager._transitionTo(next)`: set the state, then run the entry
handler (`LOADING`/`RESULT` side effects that leave the simulation state
are omitted; `RESULT` disables input). -/
def GMState.transitionTo (g : GMState) (next : GameState) : GMState :=
  let g1 := { g with state := next }
  match next with
  | .PLAYING => g1.onEnterPlaying
  | .PAUSED  => { g1 with inputEnabled := false }
  | .RESULT  => { g1 with inputEnabled := false }
  | _        => g1

/-- `GameManager.pause()`: only acts while `PLAYING`. -/
def GMState.pause (g : GMState) : GMState :=
  if g.state = .PLAYING then g.transitionTo .PAUSED else g

/-- `GameManager.resume()`: only acts while `PAUSED`; re-enables input and
transitions to `PLAYING` (whose entry handler runs `_onEnterPlaying`). -/
def GMState.resume (g : GMState) : GMState :=
  if g.state = .PAUSED then
    ({ g with inputEnabled := true } : GMState).transitionTo .PLAYING
  else g

/-- `GameManager._checkDifficultyRamp()`: a last-match scan of
`DIFFICULTY_TIME_BRACKETS` against elapsed time; on change the new tier is
pushed to the spawner and the hook (not part of this state). -/
def GMState.checkDifficultyRamp (g : GMState) : GMState :=
  let elapsed := g.totalTime - g.timeLeft
  let newIdx := (List.range DIFFICULTY_TIME_BRACKETS.length).foldl
    (fun acc i => if DIFFICULTY_TIME_BRACKETS.getD i 0 ≤ elapsed then i
                  else acc) 0
  if newIdx ≠ g.diffIdx then { g with diffIdx := newIdx } else g

/-- `GameManager.update(dt)`: tick only while `PLAYING`; advance the
countdown, re-evaluate the difficulty bracket, transition to `RESULT` at
zero. -/
def GMState.update (g : GMState) (dt : ℚ) : GMState :=
  if g.state ≠ .PLAYING then g
  else
    let g1 := ({ g with timeLeft := g.timeLeft - dt } : GMState).checkDifficultyRamp
    if g1.timeLeft ≤ 0 then g1.transitionTo .RESULT else g1

/-- `GameManager._onHookCatch(payload)`: guard on `PLAYING`, then
`ComboManager.onSuccessfulCatch()` followed by `ScoreManager.addScore(obj)`
— in that order, so `addScore` reads the already-updated multiplier.
Returns the new state, the emitted events, and the score delta that was
computed (`none` when the guard rejected the event). -/
def GMState.onHookCatch (g : GMState) (obj : SpawnInstance) :
    GMState × List Emit × Option ℤ :=
  if g.state ≠ .PLAYING then (g, [], none)
  else
    let (combo, comboEmits) := g.combo.onSuccessfulCatch
    let (score, scoreEmits, delta) :=
      g.score.addScore obj.scoreValue combo.currentTier.multiplier
    ({ g with combo := combo, score := score },
     comboEmits ++ scoreEmits, some delta)

/-- `GameManager._onHookMiss(payload)`: guard on `PLAYING`, then
`ComboManager.onMiss()` and `ScoreManager.recordMiss()`. -/
def GMState.onHookMiss (g : GMState) : GMState × List Emit :=
  if g.state ≠ .PLAYING then (g, [])
  else
    let (combo, emits) := g.combo.onMiss
    ({ g with combo := combo, score := g.score.recordMiss }, emits)

/-! ## ObjectPool (second part of
`src/assets/scripts/monetization/DailyRewardManager.ts`) -/

/-- How `ObjectPool.acquire` produced its node: popped from the free list,
or freshly instantiated because the free list was empty.  The source
returns a `Node` on both paths — there is no "no instance" result. -/
inductive AcquireResult
  | fromFree | instantiated
  deriving DecidableEq, Repr

/-- `ObjectPool` — the free list is represented by its length (node
identities carry no game state). -/
structure ObjectPool where
  free    : ℕ
  maxSize : ℕ
  deriving DecidableEq, Repr

/-- `ObjectPool.acquire()`: pop a free node, or instantiate a fresh one
when the free list is empty; a node is returned on every path. -/
def ObjectPool.acquire (p : ObjectPool) : AcquireResult × ObjectPool :=
  if 0 < p.free then (.fromFree, { p with free := p.free - 1 })
  else (.instantiated, p)

/-- `ObjectPool.release(node)`: push back while below `maxSize`, else
destroy the node. -/
def ObjectPool.release (p : ObjectPool) : ObjectPool :=
  if p.free < p.maxSize then { p with free := p.free + 1 } else p

/-! ## ObjectSpawner (`src/assets/scripts/gameplay/ObjectSpawner.ts`)

The happy scene configuration is assumed: `spawnAreaNode` is assigned and
every catalogue config has a bound pool whose prefab carries a
`SpawnedObjectController` (the guards that skip spawning otherwise are
configuration-error paths).  Spawn randomisation of speed/scale/lane does
not affect the claims and is omitted; the uniform draw used for category
selection is an explicit parameter. -/

/-- The scheduler state `ObjectSpawner` owns.  `activeCount` is
`_activeControllers.length`. -/
structure SpawnerState where
  activeCount        : ℕ
  isRunning          : Bool
  ftueMode           : Bool
  ftueRemaining      : ℕ
  failSoftActive     : Bool
  timeSinceLastCatch : ℚ
  spawnTimer         : ℚ
  spawnInterval      : ℚ
  deriving DecidableEq, Repr

/-- `ObjectSpawner._spawnObject(cfg, isFTUE)`: acquire, configure and
activate one instance of `cfg`; the new controller joins
`_activeControllers`.  Returns the new state and the spawned config. -/
def SpawnerState.spawnObject (st : SpawnerState) (cfg : SpawnCfg) :
    SpawnerState × List SpawnCfg :=
  ({ st with activeCount := st.activeCount + 1 }, [cfg])

/-- `ObjectSpawner._trySpawn()`: refuse at the active-object cap, else pick
the config by FTUE / fail-soft / normal priority and spawn it.  `r` is the
uniform draw consumed by `rollRandomObject`. -/
def SpawnerState.trySpawn (st : SpawnerState) (r : ℚ) :
    SpawnerState × List SpawnCfg :=
  if maxActiveObjects ≤ st.activeCount then (st, [])
  else
    let cfg :=
      if st.ftueMode ∧ 0 < st.ftueRemaining then FTUE_OBJECT_CONFIG
      else if st.failSoftActive then
        rollRandomObject FAIL_SOFT_WEIGHT_OVERRIDE r
      else rollRandomObject (fun _ => none) r
    st.spawnObject cfg

/-- `ObjectSpawner._forceBonus()` — the `FORCE_BONUS_SPAWN` handler: while
running, spawn `FTUE_OBJECT_CONFIG` directly (no active-object-cap
check). -/
def SpawnerState.forceBonus (st : SpawnerState) : SpawnerState × List SpawnCfg :=
  if st.isRunning = false then (st, [])
  else st.spawnObject FTUE_OBJECT_CONFIG

/-- The second half of `ObjectSpawner.update(dt)` — the periodic
spawn-timer advance — applied to the state/forced-spawn pair `p1` the
reward-rhythm half produced. -/
def updateSpawnTimer (p1 : SpawnerState × List SpawnCfg) (dt r : ℚ) :
    SpawnerState × List SpawnCfg × List SpawnCfg :=
  if p1.1.spawnInterval ≤ p1.1.spawnTimer + dt then
    ((SpawnerState.trySpawn { p1.1 with spawnTimer := 0 } r).1, p1.2,
     (SpawnerState.trySpawn { p1.1 with spawnTimer := 0 } r).2)
  else ({ p1.1 with spawnTimer := p1.1.spawnTimer + dt }, p1.2, [])

/-- `ObjectSpawner.update(dt)`: advance the reward-rhythm accumulator and
force a bonus spawn when it reaches the interval (the `FORCE_BONUS_SPAWN`
emission is dispatched synchronously into `_forceBonus`); then advance the
spawn timer and try one periodic spawn when it fires.  Returns the new
state, the force-spawned configs and the periodically spawned configs. -/
def SpawnerState.update (st : SpawnerState) (dt : ℚ) (r : ℚ) :
    SpawnerState × List SpawnCfg × List SpawnCfg :=
  if st.isRunning = false then (st, [], [])
  else
    updateSpawnTimer
      (if REWARD_RHYTHM_INTERVAL_S ≤ st.timeSinceLastCatch + dt then
        SpawnerState.forceBonus { st with timeSinceLastCatch := 0 }
      else ({ st with timeSinceLastCatch := st.timeSinceLastCatch + dt }, []))
      dt r

/-- `ObjectSpawner._onHookCatch(payload)`: reset the reward-rhythm
accumulator on every catch, advance the FTUE bookkeeping, and remove the
caught controller from the active list. -/
def SpawnerState.onHookCatch (st : SpawnerState) (objType : ObjectType) :
    SpawnerState :=
  let st1 := { st with timeSinceLastCatch := 0 }
  let st2 :=
    if st1.ftueMode ∧ 0 < st1.ftueRemaining ∧ objType = ObjectType.BONUS then
      { st1 with ftueRemaining := st1.ftueRemaining - 1,
                 ftueMode := if st1.ftueRemaining - 1 = 0 then false
                             else st1.ftueMode }
    else st1
  { st2 with activeCount := st2.activeCount - 1 }

/-! ## Score event traces (for quantifying over catch/miss sequences) -/

/-- One scoring step seen by `ScoreManager` after initialisation: a scored
catch (`addScore`, with the multiplier in effect) or an empty-hook miss
(`recordMiss`). -/
inductive ScoreEvent
  | caught (scoreValue : ℚ) (multiplier : ℚ)
  | miss
  deriving DecidableEq, Repr

/-- Apply one `ScoreEvent` to the score state. -/
def scoreStep (s : ScoreState) (e : ScoreEvent) : ScoreState :=
  match e with
  | .caught v m => (s.addScore v m).1
  | .miss => s.recordMiss

/-- Evaluate `jsRound` at a concrete rational by bounding `q + 1/2`. -/
theorem jsRound_eq {q : ℚ} {n : ℤ} (h₁ : (n : ℚ) ≤ q + 1/2)
    (h₂ : q + 1/2 < n + 1) : jsRound q = n := by
  unfold jsRound
  exact Int.floor_eq_iff.mpr ⟨h₁, h₂⟩

/-- `jsRound q` is positive as soon as `1/2 ≤ q`. -/
theorem jsRound_pos {q : ℚ} (h : 1/2 ≤ q) : 0 < jsRound q := by
  unfold jsRound
  have : (1 : ℤ) ≤ ⌊q + 1/2⌋ := by
    rw [Int.le_floor]
    push_cast
    linarith
  omega

/-- `jsRound q` is negative as soon as `q < -1/2`. -/
theorem jsRound_neg {q : ℚ} (h : q < -1/2) : jsRound q < 0 := by
  unfold jsRound
  have : ⌊q + 1/2⌋ < 0 := by
    rw [Int.floor_lt]
    push_cast
    linarith
  omega

/-! ## Shared lemmas -/

/-- Every step keeps the running score non-negative. -/
theorem scoreStep_nonneg (s : ScoreState) (e : ScoreEvent)
    (h : 0 ≤ s.currentScore) : 0 ≤ (scoreStep s e).currentScore := by
  cases e with
  | caught v m => exact le_max_left 0 _
  | miss => exact h

/-- Folding any event sequence from a non-negative score stays
non-negative. -/
theorem runScore_nonneg :
    ∀ (l : List ScoreEvent) (s : ScoreState), 0 ≤ s.currentScore →
      0 ≤ (l.foldl scoreStep s).currentScore
  | [], _, h => h
  | e :: rest, s, h => runScore_nonneg rest _ (scoreStep_nonneg s e h)

/-! ## C4 — score floor -/

/-- C4: for every sequence of catch and miss events after initialisation
the running score is never negative, and each `addScore` step sets the
score to `max 0 (previous + delta)` with `delta = round(value ×
multiplier)`, however negative the delta. -/
theorem score_floored_at_zero :
    (∀ (pb : ℤ) (events : List ScoreEvent),
        0 ≤ (events.foldl scoreStep (ScoreState.init pb)).currentScore) ∧
    (∀ (s : ScoreState) (v m : ℚ),
        (ScoreState.addScore s v m).1.currentScore =
          max 0 (s.currentScore + jsRound (v * m))) :=
  ⟨fun _ events => runScore_nonneg events _ le_rfl, fun _ _ _ => rfl⟩

/-! ## C10 — COMBO_RESET emission -/

/-- C10: a miss emits the `COMBO_RESET` signal exactly when the combo
count just before the miss was at least 3; the combo count and tier reset
to zero/baseline regardless. -/
theorem comboReset_signal_iff_streak_at_least_three (s : ComboState) :
    ((∃ n, Emit.comboReset n ∈ (ComboState.onMiss s).2) ↔ 3 ≤ s.comboCount) ∧
    (ComboState.onMiss s).1.comboCount = 0 ∧
    (ComboState.onMiss s).1.currentTier = baselineTier := by
  refine ⟨?_, rfl, rfl⟩
  unfold ComboState.onMiss
  by_cases h3 : 3 ≤ s.comboCount <;>
    by_cases hf : s.failSoftActive <;>
      by_cases ht : FAIL_SOFT_THRESHOLD ≤ s.consecutiveFailures + 1 <;>
        simp [h3, hf, ht]

/-! ## C9 — fail-soft threshold -/

/-- C9: from an inactive fail-soft state a miss raises the fail-soft
signal exactly when the failure count reaches the threshold (2); while
active no further signal fires; one successful catch clears the flag and
zeroes the failure counter.  The concrete conjuncts trace a fresh session:
first miss silent, second miss raises, third miss silent again. -/
theorem failSoft_exactly_at_threshold (s : ComboState) :
    (s.failSoftActive = false →
        ((Emit.failSoft true ∈ (ComboState.onMiss s).2) ↔
          FAIL_SOFT_THRESHOLD ≤ s.consecutiveFailures + 1) ∧
        ((ComboState.onMiss s).1.failSoftActive = true ↔
          FAIL_SOFT_THRESHOLD ≤ s.consecutiveFailures + 1)) ∧
    (s.failSoftActive = true →
        Emit.failSoft true ∉ (ComboState.onMiss s).2 ∧
        (ComboState.onMiss s).1.failSoftActive = true) ∧
    ((ComboState.onSuccessfulCatch s).1.consecutiveFailures = 0 ∧
     (ComboState.onSuccessfulCatch s).1.failSoftActive = false) ∧
    ((ComboState.onMiss ComboState.reset).2 = [] ∧
     (ComboState.onMiss (ComboState.onMiss ComboState.reset).1).2 =
       [Emit.failSoft true] ∧
     (ComboState.onMiss (ComboState.onMiss
        (ComboState.onMiss ComboState.reset).1).1).2 = []) := by
  refine ⟨?_, ?_, ⟨rfl, rfl⟩, ⟨rfl, rfl, rfl⟩⟩
  · intro hf
    unfold ComboState.onMiss
    constructor
    · by_cases h3 : 3 ≤ s.comboCount <;>
        by_cases ht : FAIL_SOFT_THRESHOLD ≤ s.consecutiveFailures + 1 <;>
          simp [h3, hf, ht]
    · by_cases ht : FAIL_SOFT_THRESHOLD ≤ s.consecutiveFailures + 1 <;>
        simp [hf, ht]
  · intro hf
    unfold ComboState.onMiss
    constructor
    · by_cases h3 : 3 ≤ s.comboCount <;> simp [h3, hf]
    · simp [hf]

/-- `addScore` with a non-negative delta takes the catch-counter branch. -/
theorem addScore_caught_of_nonneg (s : ScoreState) (v m : ℚ)
    (h : 0 ≤ jsRound (v * m)) :
    (ScoreState.addScore s v m).1.objectsCaught = s.objectsCaught + 1 ∧
    (ScoreState.addScore s v m).1.objectsMissed = s.objectsMissed := by
  unfold ScoreState.addScore
  constructor <;> simp [h]

/-- `addScore` with a negative delta takes the miss-counter branch. -/
theorem addScore_missed_of_neg (s : ScoreState) (v m : ℚ)
    (h : jsRound (v * m) < 0) :
    (ScoreState.addScore s v m).1.objectsMissed = s.objectsMissed + 1 ∧
    (ScoreState.addScore s v m).1.objectsCaught = s.objectsCaught := by
  unfold ScoreState.addScore
  constructor <;> simp [not_le.mpr h]

/-! ## C5 — multiplier applied after the catch's combo update -/

/-- C5: while `PLAYING`, the orchestrator's catch handler first runs the
combo engine's success path and then scores with the multiplier of the
tier resolved by that same catch: the emitted delta is
`round(scoreValue × multiplierAfterUpdate)` and the stored score state is
`addScore` evaluated at that multiplier. -/
theorem catch_scores_with_updated_multiplier (g : GMState) (obj : SpawnInstance)
    (h : g.state = GameState.PLAYING) :
    (GMState.onHookCatch g obj).2.2 =
      some (jsRound (obj.scoreValue *
        (ComboState.onSuccessfulCatch g.combo).1.currentTier.multiplier)) ∧
    (GMState.onHookCatch g obj).1.combo =
      (ComboState.onSuccessfulCatch g.combo).1 ∧
    (GMState.onHookCatch g obj).1.score =
      (ScoreState.addScore g.score obj.scoreValue
        (ComboState.onSuccessfulCatch g.combo).1.currentTier.multiplier).1 := by
  unfold GMState.onHookCatch
  rw [if_neg (by simp [h])]
  exact ⟨rfl, rfl, rfl⟩

/-- Witness for C5: the first catch of a fresh session (combo 0 → 1, tier
baseline ×1) scoring `common_small` (value 10) emits delta
`round(10 × 1) = 10`. -/
theorem catch_scores_with_updated_multiplier_witness :
    (GMState.onHookCatch
        ⟨GameState.PLAYING, 45, 45, 0, true, ComboState.reset, ScoreState.init 0⟩
        ⟨"common_small", ObjectType.COMMON, 10⟩).2.2 =
      some (jsRound ((10 : ℚ) *
        (ComboState.onSuccessfulCatch ComboState.reset).1.currentTier.multiplier)) ∧
    jsRound ((10 : ℚ) *
        (ComboState.onSuccessfulCatch ComboState.reset).1.currentTier.multiplier)
      = 10 := by
  constructor
  · exact (catch_scores_with_updated_multiplier _ _ rfl).1
  · have hmul : (ComboState.onSuccessfulCatch ComboState.reset).1.currentTier.multiplier
        = 1 := rfl
    rw [hmul]
    exact jsRound_eq (by norm_num) (by norm_num)

/-! ## C6 — catch/miss statistics split by delta sign -/

/-- C6: for every catalogue object and every combo tier, the scored catch
increments the catch counter when the delta is positive and the miss
counter (leaving the catch counter alone) when the delta is non-positive —
in particular a hazard catch counts as a miss for statistics. -/
theorem positive_delta_counts_catch_nonpositive_counts_miss
    (cfg : SpawnCfg) (tier : ComboTier)
    (hc : cfg ∈ OBJECT_DATABASE) (ht : tier ∈ comboTiers) (s : ScoreState) :
    (0 < (ScoreState.addScore s cfg.baseScoreValue tier.multiplier).2.2 →
      (ScoreState.addScore s cfg.baseScoreValue tier.multiplier).1.objectsCaught
          = s.objectsCaught + 1 ∧
      (ScoreState.addScore s cfg.baseScoreValue tier.multiplier).1.objectsMissed
          = s.objectsMissed) ∧
    ((ScoreState.addScore s cfg.baseScoreValue tier.multiplier).2.2 ≤ 0 →
      (ScoreState.addScore s cfg.baseScoreValue tier.multiplier).1.objectsMissed
          = s.objectsMissed + 1 ∧
      (ScoreState.addScore s cfg.baseScoreValue tier.multiplier).1.objectsCaught
          = s.objectsCaught) := by
  have hm : 1 ≤ tier.multiplier := by
    fin_cases ht <;> norm_num [comboTiers]
  have hdelta : 0 < jsRound (cfg.baseScoreValue * tier.multiplier) ∨
      jsRound (cfg.baseScoreValue * tier.multiplier) < 0 := by
    fin_cases hc
    · exact Or.inl (jsRound_pos (by nlinarith))
    · exact Or.inl (jsRound_pos (by nlinarith))
    · exact Or.inl (jsRound_pos (by nlinarith))
    · exact Or.inl (jsRound_pos (by nlinarith))
    · exact Or.inr (jsRound_neg (by nlinarith))
    · exact Or.inl (jsRound_pos (by nlinarith))
  constructor
  · intro hpos
    have h0 : 0 ≤ jsRound (cfg.baseScoreValue * tier.multiplier) := le_of_lt hpos
    exact addScore_caught_of_nonneg s _ _ h0
  · intro hle
    have h0 : jsRound (cfg.baseScoreValue * tier.multiplier) ≤ 0 := hle
    rcases hdelta with hpos | hneg
    · exact absurd h0 (not_le.mpr hpos)
    · exact addScore_missed_of_neg s _ _ hneg

/-- Witness for C6 — the spec's own example: catching the hazard
(`obstacle_rock`, value −30) at multiplier 1.5 with running score 20 gives
delta −45, floors the score at 0, increments the miss counter and leaves
the catch counter alone. -/
theorem positive_delta_counts_catch_nonpositive_counts_miss_witness :
    (ScoreState.addScore ⟨20, 20, 100, false, 0, 0⟩ (-30 : ℚ) (3/2)).1.objectsMissed
        = 1 ∧
    (ScoreState.addScore ⟨20, 20, 100, false, 0, 0⟩ (-30 : ℚ) (3/2)).1.objectsCaught
        = 0 ∧
    (ScoreState.addScore ⟨20, 20, 100, false, 0, 0⟩ (-30 : ℚ) (3/2)).2.2 = -45 ∧
    (ScoreState.addScore ⟨20, 20, 100, false, 0, 0⟩ (-30 : ℚ) (3/2)).1.currentScore
        = 0 := by
  have hd : jsRound ((-30 : ℚ) * (3/2)) = -45 :=
    jsRound_eq (by norm_num) (by norm_num)
  have hle : (ScoreState.addScore ⟨20, 20, 100, false, 0, 0⟩ (-30 : ℚ)
      (3/2)).2.2 ≤ 0 := by
    show jsRound ((-30 : ℚ) * (3/2)) ≤ 0
    rw [hd]
    norm_num
  have h := (positive_delta_counts_catch_nonpositive_counts_miss
      ⟨"obstacle_rock", .OBSTACLE, -30, 3/25, true⟩ ⟨3, 3/2, "GOOD!"⟩
      (by simp [OBJECT_DATABASE]) (by simp [comboTiers])
      ⟨20, 20, 100, false, 0, 0⟩).2 hle
  refine ⟨h.1, h.2, hd, ?_⟩
  have hscore : (ScoreState.addScore ⟨20, 20, 100, false, 0, 0⟩ (-30 : ℚ)
      (3/2)).1.currentScore = max 0 (20 + jsRound ((-30 : ℚ) * (3/2))) := rfl
  rw [hscore, hd]
  norm_num

/-! ## C1 — obstacle catch routed through the success path (code bug) -/

/-- C1 (code-bug evidence): with the session `PLAYING` and a live combo of
2, catching the obstacle category (`obstacle_rock`, hazard flag set, value
−30) goes through `_onHookCatch` → `onSuccessfulCatch`: the combo count
rises to 3, the consecutive-failure counter resets to 0 and the tier
becomes the GOOD! (×1.5) tier — there is no obstacle → `onMiss` routing
anywhere in `GameManager`, contradicting the combo-reset behaviour the
source comments document for obstacles. -/
theorem obstacle_catch_increments_combo :
    (GMState.onHookCatch
        ⟨GameState.PLAYING, 40, 45, 0, true,
         ⟨2, 2, 1, ⟨1, 1, ""⟩, false⟩, ScoreState.init 0⟩
        ⟨"obstacle_rock", ObjectType.OBSTACLE, -30⟩).1.combo.comboCount = 3 ∧
    (GMState.onHookCatch
        ⟨GameState.PLAYING, 40, 45, 0, true,
         ⟨2, 2, 1, ⟨1, 1, ""⟩, false⟩, ScoreState.init 0⟩
        ⟨"obstacle_rock", ObjectType.OBSTACLE, -30⟩).1.combo.consecutiveFailures
        = 0 ∧
    (GMState.onHookCatch
        ⟨GameState.PLAYING, 40, 45, 0, true,
         ⟨2, 2, 1, ⟨1, 1, ""⟩, false⟩, ScoreState.init 0⟩
        ⟨"obstacle_rock", ObjectType.OBSTACLE, -30⟩).1.combo.currentTier
        = ⟨3, 3/2, "GOOD!"⟩ :=
  ⟨rfl, rfl, rfl⟩

/-! ## C3 — resume resets the countdown (code bug) -/

/-- C3 (code-bug evidence): pausing at 30 s remaining (of 45) and resuming
returns to `PLAYING` with input enabled, but `resume`'s transition re-runs
`_onEnterPlaying`, which resets the countdown to the full session duration
(45); on the next tick the difficulty ramp, reading elapsed time from the
refilled countdown, drops the tier index from 1 back to 0. -/
theorem resume_resets_countdown_and_difficulty :
    (GMState.pause
      ⟨GameState.PLAYING, 30, 45, 1, true, ComboState.reset,
       ScoreState.init 0⟩).state = GameState.PAUSED ∧
    (GMState.pause
      ⟨GameState.PLAYING, 30, 45, 1, true, ComboState.reset,
       ScoreState.init 0⟩).timeLeft = 30 ∧
    (GMState.resume (GMState.pause
      ⟨GameState.PLAYING, 30, 45, 1, true, ComboState.reset,
       ScoreState.init 0⟩)).state = GameState.PLAYING ∧
    (GMState.resume (GMState.pause
      ⟨GameState.PLAYING, 30, 45, 1, true, ComboState.reset,
       ScoreState.init 0⟩)).inputEnabled = true ∧
    (GMState.resume (GMState.pause
      ⟨GameState.PLAYING, 30, 45, 1, true, ComboState.reset,
       ScoreState.init 0⟩)).timeLeft = 45 ∧
    (GMState.update (GMState.resume (GMState.pause
      ⟨GameState.PLAYING, 30, 45, 1, true, ComboState.reset,
       ScoreState.init 0⟩)) 5).diffIdx = 0 := by
  refine ⟨rfl, rfl, rfl, rfl, rfl, ?_⟩
  show (GMState.update
      ⟨GameState.PLAYING, 45, 45, 1, true, ComboState.reset,
       ScoreState.init 0⟩ 5).diffIdx = 0
  norm_num [GMState.update, GMState.checkDifficultyRamp, GMState.transitionTo,
    DIFFICULTY_TIME_BRACKETS, List.range_succ, GMState.onEnterPlaying]

/-! ## Weighted-draw lemmas -/

/-- Folding the weight sum from any accumulator shifts by the total. -/
theorem foldl_weight_shift (t : List WeightEntry) :
    ∀ acc : ℚ, t.foldl (fun s e => s + e.weight) acc = acc + totalWeight t := by
  induction t with
  | nil => intro acc; simp [totalWeight]
  | cons e rest ih =>
      intro acc
      have hconsT : totalWeight (e :: rest) =
          (0 + e.weight) + totalWeight rest := by
        unfold totalWeight
        simp only [List.foldl_cons]
        exact ih (0 + e.weight)
      simp only [List.foldl_cons]
      rw [ih (acc + e.weight), hconsT]
      ring

/-- `totalWeight` unfolds over cons. -/
theorem totalWeight_cons (e : WeightEntry) (rest : List WeightEntry) :
    totalWeight (e :: rest) = e.weight + totalWeight rest := by
  have h := foldl_weight_shift rest (0 + e.weight)
  show rest.foldl (fun s e => s + e.weight) (0 + e.weight) = _
  rw [h]
  ring

/-- A table of non-negative weights has a non-negative total. -/
theorem totalWeight_nonneg (t : List WeightEntry)
    (hw : ∀ e ∈ t, 0 ≤ e.weight) : 0 ≤ totalWeight t := by
  induction t with
  | nil => simp [totalWeight]
  | cons e rest ih =>
      rw [totalWeight_cons]
      have h1 := hw e (List.mem_cons_self e rest)
      have h2 := ih (fun x hx => hw x (List.mem_cons_of_mem e hx))
      linarith

/-- With a positive roll not exceeding the total of a non-negative table,
the loop stops at an entry whose weight covers the remaining roll — so the
selected weight is positive. -/
theorem drawLoop_pos_weight (t : List WeightEntry) (last : WeightEntry) :
    ∀ roll : ℚ, (∀ e ∈ t, 0 ≤ e.weight) → 0 < roll → roll ≤ totalWeight t →
      0 < (drawLoop roll t last).weight := by
  induction t with
  | nil =>
      intro roll _ hpos hle
      unfold totalWeight at hle
      simp at hle
      linarith
  | cons e rest ih =>
      intro roll hw hpos hle
      unfold drawLoop
      rw [totalWeight_cons] at hle
      by_cases hc : roll - e.weight ≤ 0
      · rw [if_pos hc]
        linarith
      · rw [if_neg hc]
        exact ih (roll - e.weight)
          (fun x hx => hw x (List.mem_cons_of_mem e hx))
          (by linarith) (by linarith)

/-- When the whole pass leaves a positive remainder, the loop falls
through to the last catalogue entry. -/
theorem drawLoop_fallback (t : List WeightEntry) (last : WeightEntry) :
    ∀ roll : ℚ, (∀ e ∈ t, 0 ≤ e.weight) → totalWeight t < roll →
      drawLoop roll t last = last := by
  induction t with
  | nil => intro roll _ _; rfl
  | cons e rest ih =>
      intro roll hw hlt
      rw [totalWeight_cons] at hlt
      have h0 : 0 ≤ e.weight := hw e (List.mem_cons_self e rest)
      have hrest : 0 ≤ totalWeight rest :=
        totalWeight_nonneg rest (fun x hx => hw x (List.mem_cons_of_mem e hx))
      unfold drawLoop
      rw [if_neg (by linarith)]
      exact ih (roll - e.weight)
        (fun x hx => hw x (List.mem_cons_of_mem e hx)) (by linarith)

/-- A roll at or below zero selects the first entry whenever the first
weight is non-negative. -/
theorem drawLoop_zero_roll (e : WeightEntry) (rest : List WeightEntry)
    (last : WeightEntry) (roll : ℚ) (he : 0 ≤ e.weight) (hroll : roll ≤ 0) :
    drawLoop roll (e :: rest) last = e := by
  unfold drawLoop
  rw [if_pos (by linarith)]

/-! ## C7 — weighted draw and zero-weight categories -/

/-- C7 counterexample: overriding the first catalogue category
(`common_small`) to weight 0 and drawing the uniform value 0 (a legal
value of `[0,1)`), the loop's first subtraction leaves a roll of 0 ≤ 0 and
`common_small` — a category whose applicable weight is zero — is
selected. -/
theorem zero_weight_category_selected_at_zero_roll :
    (rollRandomObject
        (fun id => if id = "common_small" then some 0 else none) 0).id
        = "common_small" ∧
    (rollRandomEntry
        (fun id => if id = "common_small" then some 0 else none) 0).weight
        = 0 ∧
    (0 : ℚ) ≤ 0 ∧ (0 : ℚ) < 1 := by
  have h :
      rollRandomEntry
        (fun id => if id = "common_small" then some 0 else none) 0 =
      ⟨⟨"common_small", .COMMON, 10, 3/10, false⟩, 0⟩ := by
    unfold rollRandomEntry
    exact drawLoop_zero_roll _ _ _ _ le_rfl (by simp)
  refine ⟨?_, ?_, le_rfl, by norm_num⟩
  · show (rollRandomEntry _ 0).cfg.id = "common_small"
    rw [h]
  · rw [h]

/-- C7 amended: with non-negative applicable weights and a uniform draw
`r ∈ [0,1)`, the draw can select a zero-weight category only in the
degenerate case where the scaled roll `r × total` is zero and that
category sits first in the catalogue (e.g. `r = 0`, or an all-zero
table); and — the documented tie/rounding rule — whenever subtracting all
weights leaves a positive remainder the loop returns the last catalogue
entry. -/
theorem zero_weight_selected_only_at_degenerate_first_entry
    (ov : String → Option ℚ) (r : ℚ) (h0 : 0 ≤ r) (h1 : r < 1)
    (hw : ∀ e ∈ rollTable ov, 0 ≤ e.weight) :
    ((rollRandomEntry ov r).weight = 0 →
        rollRandomEntry ov r =
          (rollTable ov).getD 0 ⟨⟨"", .COMMON, 0, 0, false⟩, 0⟩ ∧
        r * totalWeight (rollTable ov) = 0) ∧
    (∀ (roll : ℚ) (t : List WeightEntry) (last : WeightEntry),
        (∀ e ∈ t, 0 ≤ e.weight) → totalWeight t < roll →
        drawLoop roll t last = last) := by
  refine ⟨?_, fun roll t last hw2 hlt => drawLoop_fallback t last roll hw2 hlt⟩
  intro hzero
  have htot : 0 ≤ totalWeight (rollTable ov) := totalWeight_nonneg _ hw
  have hroll0 : 0 ≤ r * totalWeight (rollTable ov) := mul_nonneg h0 htot
  rcases eq_or_lt_of_le hroll0 with heq | hpos
  · refine ⟨?_, heq.symm⟩
    obtain ⟨e, rest, hcons⟩ : ∃ e rest, rollTable ov = e :: rest := ⟨_, _, rfl⟩
    have he : 0 ≤ e.weight := hw e (hcons ▸ List.mem_cons_self e rest)
    show drawLoop (r * totalWeight (rollTable ov)) (rollTable ov) _ = _
    rw [hcons, drawLoop_zero_roll e rest _ _ he (by rw [← hcons]; linarith)]
    simp [hcons]
  · exfalso
    have hle : r * totalWeight (rollTable ov) ≤ totalWeight (rollTable ov) := by
      have h2 : r * totalWeight (rollTable ov) ≤ 1 * totalWeight (rollTable ov) :=
        mul_le_mul_of_nonneg_right (le_of_lt h1) htot
      linarith
    have hposw := drawLoop_pos_weight (rollTable ov)
      ((rollTable ov).getD ((rollTable ov).length - 1)
        ⟨⟨"", .COMMON, 0, 0, false⟩, 0⟩)
      (r * totalWeight (rollTable ov)) hw hpos hle
    have hzero2 : (drawLoop (r * totalWeight (rollTable ov)) (rollTable ov)
        ((rollTable ov).getD ((rollTable ov).length - 1)
          ⟨⟨"", .COMMON, 0, 0, false⟩, 0⟩)).weight = 0 := hzero
    linarith

/-- Witness for C7 (amended): the fail-soft override table has
non-negative weights; at `r = 1/2 ∈ [0,1)` the theorem applies. -/
theorem zero_weight_selected_only_at_degenerate_first_entry_witness :
    ((rollRandomEntry FAIL_SOFT_WEIGHT_OVERRIDE (1/2)).weight = 0 →
        rollRandomEntry FAIL_SOFT_WEIGHT_OVERRIDE (1/2) =
          (rollTable FAIL_SOFT_WEIGHT_OVERRIDE).getD 0
            ⟨⟨"", .COMMON, 0, 0, false⟩, 0⟩ ∧
        (1/2 : ℚ) * totalWeight (rollTable FAIL_SOFT_WEIGHT_OVERRIDE) = 0) ∧
    (∀ (roll : ℚ) (t : List WeightEntry) (last : WeightEntry),
        (∀ e ∈ t, 0 ≤ e.weight) → totalWeight t < roll →
        drawLoop roll t last = last) := by
  apply zero_weight_selected_only_at_degenerate_first_entry
      FAIL_SOFT_WEIGHT_OVERRIDE (1/2) (by norm_num) (by norm_num)
  intro e he
  have ht : rollTable FAIL_SOFT_WEIGHT_OVERRIDE =
      [ ⟨⟨"common_small",  .COMMON,   10,  3/10,  false⟩, 2/5⟩,
        ⟨⟨"common_large",  .COMMON,   25,  1/5,   false⟩, 2/25⟩,
        ⟨⟨"rare_gem",      .RARE,     60,  9/50,  false⟩, 1/5⟩,
        ⟨⟨"bonus_gold",    .BONUS,    100, 3/25,  false⟩, 3/10⟩,
        ⟨⟨"obstacle_rock", .OBSTACLE, -30, 3/25,  true⟩,  0⟩,
        ⟨⟨"special_star",  .SPECIAL,  200, 2/25,  false⟩, 1/50⟩ ] := rfl
  rw [ht] at he
  simp only [List.mem_cons, List.not_mem_nil, or_false] at he
  rcases he with rfl | rfl | rfl | rfl | rfl | rfl <;> norm_num

/-! ## C2 — active-object cap and pool acquisition -/

/-- C2 counterexample: with eight objects active (exactly the configured
`maxActiveObjects`) and the scheduler running at 9 s without a catch, the
reward-rhythm tick force-spawns anyway and the active count reaches
9 > 8; and `ObjectPool.acquire` on an exhausted free list instantiates a
fresh node — it never returns "no instance". -/
theorem forced_spawn_exceeds_active_cap :
    (SpawnerState.update ⟨8, true, false, 0, false, 9, 0, 6/5⟩
        (1/10) (1/2)).1.activeCount = 9 ∧
    maxActiveObjects = 8 ∧
    (ObjectPool.acquire ⟨0, 24⟩).1 = AcquireResult.instantiated ∧
    (ObjectPool.acquire ⟨0, 24⟩).2 = ⟨0, 24⟩ := by
  refine ⟨?_, rfl, rfl, rfl⟩
  norm_num [SpawnerState.update, updateSpawnTimer, SpawnerState.forceBonus,
    SpawnerState.spawnObject, SpawnerState.trySpawn, REWARD_RHYTHM_INTERVAL_S,
    maxActiveObjects]

/-- C2 amended: only the periodic `_trySpawn` path enforces
`maxActiveObjects` (refusing to spawn at or above the cap); the
reward-rhythm forced spawn bypasses the check and always adds an instance
while the scheduler runs; and `ObjectPool.acquire` never refuses — it pops
a free node when one exists and instantiates a fresh node otherwise (the
`maxSize` capacity only bounds the free list on release). -/
theorem spawn_cap_enforced_only_on_periodic_path
    (st : SpawnerState) (r : ℚ) (p : ObjectPool) :
    (st.activeCount ≤ maxActiveObjects →
        (SpawnerState.trySpawn st r).1.activeCount ≤ maxActiveObjects) ∧
    (maxActiveObjects ≤ st.activeCount →
        (SpawnerState.trySpawn st r).1 = st ∧
        (SpawnerState.trySpawn st r).2 = []) ∧
    (st.isRunning = true →
        (SpawnerState.forceBonus st).1.activeCount = st.activeCount + 1) ∧
    (0 < p.free →
        (ObjectPool.acquire p).1 = AcquireResult.fromFree ∧
        (ObjectPool.acquire p).2.free = p.free - 1) ∧
    (p.free = 0 →
        (ObjectPool.acquire p).1 = AcquireResult.instantiated ∧
        (ObjectPool.acquire p).2 = p) := by
  refine ⟨?_, ?_, ?_, ?_, ?_⟩
  · intro hle
    unfold SpawnerState.trySpawn SpawnerState.spawnObject
    by_cases hcap : maxActiveObjects ≤ st.activeCount
    · rw [if_pos hcap]
      exact hle
    · rw [if_neg hcap]
      have hlt : st.activeCount < maxActiveObjects := lt_of_not_le hcap
      show st.activeCount + 1 ≤ maxActiveObjects
      omega
  · intro hcap
    unfold SpawnerState.trySpawn
    rw [if_pos hcap]
    exact ⟨rfl, rfl⟩
  · intro hrun
    unfold SpawnerState.forceBonus SpawnerState.spawnObject
    rw [if_neg (by simp [hrun])]
  · intro hfree
    unfold ObjectPool.acquire
    rw [if_pos hfree]
    exact ⟨rfl, rfl⟩
  · intro hfree
    unfold ObjectPool.acquire
    rw [if_neg (by omega)]
    exact ⟨rfl, rfl⟩

/-- Witness for C2 (amended): a running scheduler with 3 active objects
keeps the cap on the periodic path, the forced path adds its instance, and
a pool with 5 free nodes serves from the free list while an empty pool
instantiates. -/
theorem spawn_cap_enforced_only_on_periodic_path_witness :
    ((SpawnerState.trySpawn ⟨3, true, false, 0, false, 0, 0, 6/5⟩
        (1/2)).1.activeCount ≤ maxActiveObjects) ∧
    ((SpawnerState.forceBonus
        ⟨3, true, false, 0, false, 0, 0, 6/5⟩).1.activeCount = 4) ∧
    ((ObjectPool.acquire ⟨5, 24⟩).1 = AcquireResult.fromFree ∧
     (ObjectPool.acquire ⟨5, 24⟩).2.free = 4) ∧
    ((ObjectPool.acquire ⟨0, 24⟩).1 = AcquireResult.instantiated) := by
  have h3 := spawn_cap_enforced_only_on_periodic_path
      ⟨3, true, false, 0, false, 0, 0, 6/5⟩ (1/2) ⟨5, 24⟩
  have h0 := spawn_cap_enforced_only_on_periodic_path
      ⟨3, true, false, 0, false, 0, 0, 6/5⟩ (1/2) ⟨0, 24⟩
  exact ⟨h3.1 (by norm_num [maxActiveObjects]), h3.2.2.1 rfl,
    h3.2.2.2.1 (by norm_num), (h0.2.2.2.2 rfl).1⟩

/-- The spawn-timer half of the tick neither changes the forced-spawn list
nor the reward-rhythm accumulator. -/
theorem updateSpawnTimer_fields (p1 : SpawnerState × List SpawnCfg)
    (dt r : ℚ) :
    (updateSpawnTimer p1 dt r).2.1 = p1.2 ∧
    (updateSpawnTimer p1 dt r).1.timeSinceLastCatch
        = p1.1.timeSinceLastCatch := by
  unfold updateSpawnTimer
  split
  · refine ⟨rfl, ?_⟩
    unfold SpawnerState.trySpawn SpawnerState.spawnObject
    split
    · rfl
    · rfl
  · exact ⟨rfl, rfl⟩

/-! ## C8 — reward rhythm -/

/-- C8: while the scheduler runs, a tick that carries the
time-since-last-catch accumulator to the reward-rhythm interval (9 s)
force-spawns exactly one object of the guaranteed high-value category
(`bonus_gold`) and resets the accumulator to 0; a tick below the interval
spawns nothing on the forced path and just accumulates; and every catch
resets the accumulator to 0. -/
theorem reward_rhythm_forces_bonus (st : SpawnerState) (dt r : ℚ)
    (hrun : st.isRunning = true) :
    (REWARD_RHYTHM_INTERVAL_S ≤ st.timeSinceLastCatch + dt →
        (SpawnerState.update st dt r).2.1 = [FTUE_OBJECT_CONFIG] ∧
        (SpawnerState.update st dt r).1.timeSinceLastCatch = 0 ∧
        FTUE_OBJECT_CONFIG.id = "bonus_gold") ∧
    (st.timeSinceLastCatch + dt < REWARD_RHYTHM_INTERVAL_S →
        (SpawnerState.update st dt r).2.1 = [] ∧
        (SpawnerState.update st dt r).1.timeSinceLastCatch
            = st.timeSinceLastCatch + dt) ∧
    (∀ ty : ObjectType,
        (SpawnerState.onHookCatch st ty).timeSinceLastCatch = 0) := by
  have hforce : SpawnerState.forceBonus { st with timeSinceLastCatch := 0 } =
      ({ st with timeSinceLastCatch := 0, activeCount := st.activeCount + 1 },
       [FTUE_OBJECT_CONFIG]) := by
    unfold SpawnerState.forceBonus SpawnerState.spawnObject
    rw [if_neg (by simp [hrun])]
  refine ⟨?_, ?_, ?_⟩
  · intro hint
    unfold SpawnerState.update
    rw [if_neg (by simp [hrun]), if_pos hint, hforce]
    have h2 := updateSpawnTimer_fields
      ({ st with timeSinceLastCatch := 0, activeCount := st.activeCount + 1 },
       [FTUE_OBJECT_CONFIG]) dt r
    exact ⟨h2.1, h2.2, rfl⟩
  · intro hint
    unfold SpawnerState.update
    rw [if_neg (by simp [hrun]), if_neg (not_le.mpr hint)]
    have h2 := updateSpawnTimer_fields
      ({ st with timeSinceLastCatch := st.timeSinceLastCatch + dt }, []) dt r
    exact ⟨h2.1, h2.2⟩
  · intro ty
    unfold SpawnerState.onHookCatch
    by_cases h : st.ftueMode = true ∧ 0 < st.ftueRemaining ∧
        ty = ObjectType.BONUS
    · simp only [if_pos h]
    · simp only [if_neg h]

/-- Witness for C8: the spec's scenario — 9 s idle, a 0.1 s tick (9.1 s
without a catch) forces exactly one `bonus_gold` spawn and zeroes the idle
counter. -/
theorem reward_rhythm_forces_bonus_witness :
    (SpawnerState.update ⟨0, true, false, 0, false, 9, 0, 6/5⟩
        (1/10) (1/2)).2.1 = [FTUE_OBJECT_CONFIG] ∧
    (SpawnerState.update ⟨0, true, false, 0, false, 9, 0, 6/5⟩
        (1/10) (1/2)).1.timeSinceLastCatch = 0 ∧
    FTUE_OBJECT_CONFIG.id = "bonus_gold" := by
  exact (reward_rhythm_forces_bonus ⟨0, true, false, 0, false, 9, 0, 6/5⟩
      (1/10) (1/2) rfl).1 (by norm_num [REWARD_RHYTHM_INTERVAL_S])

end WeGame

/-! ## Sanity examples (concrete evaluations of the embedded catalogue) -/

example : WeGame.FTUE_OBJECT_CONFIG.id = "bonus_gold" := by rfl
example : WeGame.baselineTier = ⟨1, 1, ""⟩ := by rfl
example : WeGame.jsRound ((-30 : ℚ) * (3/2)) = -45 := by
  apply WeGame.jsRound_eq <;> norm_num
